import Mathlib

/-!
# Verification of koding/vagrantutil

A shallow embedding of the `vagrantutil` Go package (src/vagrant.go,
src/command.go) together with proofs of the behavioural properties its
specification states.

External effects (the `vagrant` subprocess, the user database, the file
system) are modelled as explicit oracle parameters and an explicit
file-system state.  `Vagrant.Up`'s streaming goroutine is modelled by the
event trace it produces; `command.start`'s streaming is modelled by the
traces its goroutines produce on schedules where the `sync.WaitGroup`
barrier takes effect, together with the early-Wait schedule that the
misplaced `wg.Add(1)` (executed inside the reader goroutines, unordered
with `wg.Wait()`) additionally permits.
-/

namespace Vagrantutil

/-! ## Data model (src/vagrant.go) -/

/-- `Status` enum from src/vagrant.go. -/
inductive Status where
  | Unknown
  | NotCreated
  | Running
  | Saved
  | PowerOff
deriving DecidableEq, Repr

/-- `BoxSubcommand` enum from src/vagrant.go. -/
inductive BoxSubcommand where
  | Add
  | List
  | Outdated
  | Remove
  | Repackage
  | Update
deriving DecidableEq, Repr

/-- `BoxSubcommand.String()`.  Modelled from the spec: the method is produced
by the `go:generate stringer` directive (the generated stringer.go is not in
the sources); stringer yields the constant's identifier. -/
def BoxSubcommand.str : BoxSubcommand → String
  | .Add => "Add"
  | .List => "List"
  | .Outdated => "Outdated"
  | .Remove => "Remove"
  | .Repackage => "Repackage"
  | .Update => "Update"

/-- The `Vagrant` struct from src/vagrant.go: a session bound to the
directory holding the Vagrantfile. -/
structure Vagrant where
  VagrantfilePath : String
deriving DecidableEq, Repr

/-! ## Structured-output parser (src/vagrant.go) -/

/-- `parseData` from src/vagrant.go: scan the records, remembering field
index 3 of every row of length at least 4 whose field index 2 equals
`typeName` (later rows overwrite earlier ones); fail when the final value
is still the empty string. -/
def parseData (records : List (List String)) (typeName : String) :
    Except String String :=
  let data := records.foldl
    (fun data record =>
      if record.length < 4 then data
      else if typeName = record.getD 2 "" then record.getD 3 ""
      else data) ""
  if data = "" then
    .error ("couldn't parse data for vagrant type: '" ++ typeName ++ "'")
  else
    .ok data

/-- The rows of the table that `parseData` lets participate in matching for
`typeName`: at least 4 fields, and field index 2 equal to the name.  (Spec
vocabulary, to be compared with `parseData` itself.) -/
def matchingRows (records : List (List String)) (typeName : String) :
    List (List String) :=
  records.filter (fun r => decide (4 ≤ r.length) && decide (typeName = r.getD 2 ""))

/-- `parseRecords` from src/vagrant.go delegates to Go's `encoding/csv`
`ReadAll`, which is outside the sources.  Modelled from the spec: interprets
the text as comma-separated rows; this model covers the quote/escape-free
fragment (no claim depends on the CSV details). -/
def parseRecords (out : String) : Except String (List (List String)) :=
  .ok (((out.splitOn "\n").filter (fun l => l ≠ "")).map (fun l => l.splitOn ","))

/-- `toStatus` from src/vagrant.go: a `switch` on the state string, with the
`default` arm returning `Unknown` together with an error carrying the
string. -/
def toStatus (state : String) : Except String Status :=
  if state = "running" then .ok .Running
  else if state = "not_created" then .ok .NotCreated
  else if state = "saved" then .ok .Saved
  else if state = "poweroff" then .ok .PowerOff
  else .error ("Unknown state: " ++ state)

/-! ## NewVagrant (src/vagrant.go)

`user.Current()` and `os.MkdirAll` are external; they enter as oracle
arguments: `current` is the current user's home directory (or the lookup
error), `mkdir` gives `MkdirAll`'s error, if any, for a path. -/

/-- `NewVagrant` from src/vagrant.go.  The Go function returns the pair
`(*Vagrant, error)`; both components are modelled as options since Go lets
either be nil. -/
def NewVagrant (current : Except String String) (mkdir : String → Option String)
    (name : String) : Option Vagrant × Option String :=
  match current with
  | .error e => (none, some e)
  | .ok homeDir =>
    if name = "" then
      -- Go: `return nil, err` where `err` is the nil error from user.Current
      (none, none)
    else
      let vagrantHome := homeDir ++ "/.koding-boxes/" ++ name
      match mkdir vagrantHome with
      | some e => (none, some e)
      | none => (some ⟨vagrantHome⟩, none)

/-! ## File system and subprocess effects

The file system is a map from paths to file contents; spawning a subprocess
and writing a file are recorded as effects so that "fails before any
subprocess is spawned" and "never overwrites" are statable. -/

/-- The file system: path to content, `none` when the file does not exist. -/
def FS : Type := String → Option String

/-- Write one file (the success path of `ioutil.WriteFile`). -/
def FS.write (fs : FS) (path content : String) : FS :=
  fun p => if p = path then some content else fs p

/-- Observable side effects of a session operation. -/
inductive Effect where
  | spawn (cwd : String) (args : List String)
  | writeFile (path content : String)
deriving DecidableEq, Repr

/-- The synchronous subprocess oracle: argument vector to `CombinedOutput`'s
result — the combined output on exit 0, otherwise the error. -/
def Oracle : Type := List String → Except String String

/-- `Vagrant.vagrantfile` from src/vagrant.go: `filepath.Join` of the session
path and the conventional file name. -/
def Vagrant.vagrantfile (v : Vagrant) : String :=
  v.VagrantfilePath ++ "/Vagrantfile"

/-- `Vagrant.vagrantfileExists` from src/vagrant.go: `os.Stat` the file; the
`IsNotExist` error is returned when absent, nil when present. -/
def Vagrant.vagrantfileExists (v : Vagrant) (fs : FS) : Except String Unit :=
  match fs v.vagrantfile with
  | some _ => .ok ()
  | none => .error ("stat " ++ v.vagrantfile ++ ": no such file or directory")

/-- `Vagrant.runCommand` from src/vagrant.go: append `--machine-readable`,
spawn, and return the combined output (or the error, with empty output). -/
def Vagrant.runCommand (v : Vagrant) (run : Oracle) (args : List String) :
    List Effect × Except String String :=
  ([Effect.spawn v.VagrantfilePath (args ++ ["--machine-readable"])],
   run (args ++ ["--machine-readable"]))

/-- `Vagrant.Version` from src/vagrant.go. -/
def Vagrant.Version (v : Vagrant) (run : Oracle) :
    List Effect × Except String String :=
  let (effs, r) := v.runCommand run ["version"]
  (effs, do
    let out ← r
    let records ← parseRecords out
    parseData records "version-installed")

/-- Go's `strings.TrimSpace`: drop leading and trailing whitespace. -/
def trimSpace (s : String) : String :=
  ⟨((s.data.dropWhile Char.isWhitespace).reverse.dropWhile
      Char.isWhitespace).reverse⟩

/-- `Vagrant.Box` from src/vagrant.go: run `box <subcommand>` and trim the
output.  (No Vagrantfile existence check appears in the source.) -/
def Vagrant.Box (v : Vagrant) (run : Oracle) (subcommand : BoxSubcommand) :
    List Effect × Except String String :=
  let (effs, r) := v.runCommand run ["box", subcommand.str]
  (effs, r.map trimSpace)

/-- `Vagrant.Status` from src/vagrant.go: require the Vagrantfile, run
`status`, extract the `state` field and translate it. -/
def Vagrant.Status (v : Vagrant) (fs : FS) (run : Oracle) :
    List Effect × Except String Status :=
  match v.vagrantfileExists fs with
  | .error e => ([], .error e)
  | .ok _ =>
    let (effs, r) := v.runCommand run ["status"]
    (effs, do
      let out ← r
      let records ← parseRecords out
      let state ← parseData records "state"
      toStatus state)

/-- `Vagrant.Destroy` from src/vagrant.go (success path of pipe/start):
require the Vagrantfile, then spawn `destroy --force`. -/
def Vagrant.Destroy (v : Vagrant) (fs : FS) :
    List Effect × Except String Unit :=
  match v.vagrantfileExists fs with
  | .error e => ([], .error e)
  | .ok _ => ([Effect.spawn v.VagrantfilePath ["destroy", "--force"]], .ok ())

/-- The sequential prefix of `Vagrant.Up` from src/vagrant.go (everything
before the streaming goroutine, whose trace semantics is modelled
separately): reject empty content, write the Vagrantfile only when it is
absent, then spawn `up`.  Returns the resulting file system, the effects in
order, and the returned error, if any. -/
def Vagrant.Up (v : Vagrant) (fs : FS) (vagrantfile : String) :
    FS × List Effect × Except String Unit :=
  if vagrantfile = "" then
    (fs, [], .error "Vagrantfile content is empty")
  else
    match fs v.vagrantfile with
    | none =>
      (fs.write v.vagrantfile vagrantfile,
       [Effect.writeFile v.vagrantfile vagrantfile,
        Effect.spawn v.VagrantfilePath ["up"]],
       .ok ())
    | some _ =>
      -- "if it's exists, don't overwrite anything and use the existing one"
      (fs, [Effect.spawn v.VagrantfilePath ["up"]], .ok ())

/-! ## command.run (src/command.go)

`CombinedOutput`'s result enters as the pair `(combined, execErr)`.  The
actions `command.run` performs before returning are recorded so that "the
completion callback fires before the call returns" is statable. -/

/-- One action of a synchronous `command.run` call. -/
inductive RunAction where
  | execute
  | callbackSuccess
  | callbackFailure
deriving DecidableEq, Repr

/-- Result of `command.run`: the actions performed before the call returns,
the returned output string and the returned error. -/
structure RunResult where
  trace : List RunAction
  output : String
  err : Option String
deriving DecidableEq, Repr

/-- `command.run` from src/command.go: on a non-zero exit wrap the raw
combined output into the error (when non-empty) and return `""`; `done`
fires exactly one callback before the return. -/
def commandRun (combined : String) (execErr : Option String) : RunResult :=
  match execErr with
  | some e =>
    let wrapped := if combined = "" then e else e ++ ": " ++ combined
    { trace := [.execute, .callbackFailure], output := "", err := some wrapped }
  | none =>
    { trace := [.execute, .callbackSuccess], output := combined, err := none }

/-! ## Streaming model (src/command.go `command.start`, src/vagrant.go `Vagrant.Up`)

A streaming invocation is modelled by the sequence of events the goroutines
push on the channel.  Line events carry a ghost tag naming the stream they
were scanned from (the Go `CommandOutput` drops it); `closed` stands for
`close(out)`.  One scanning reader is described by the lines it scans plus
the scanner error, if any, reported after them (`scanner.Err()` is checked
only once scanning stops). -/

/-- Ghost tag: which pipe a line was read from. -/
inductive Src where
  | stdout
  | stderr
deriving DecidableEq, Repr

/-- One event observed on the output channel (plus channel closure). -/
inductive Event where
  | line (src : Src) (text : String)
  | scanError (src : Option Src) (msg : String)
  | waitError (msg : String)
  | closed
deriving DecidableEq, Repr

/-- What one stream's scanner produces: the scanned lines in order, then an
optional scanner error. -/
structure StreamSpec where
  lines : List String
  scanErr : Option String
deriving DecidableEq, Repr

/-- The channel events one reader goroutine of `command.start` pushes, in
its own program order: one line event per scanned line, then one error
event if the scanner failed. -/
def readerEvents (i : Src) (s : StreamSpec) : List Event :=
  s.lines.map (Event.line i) ++
    (match s.scanErr with
     | some m => [Event.scanError (some i) m]
     | none => [])

/-- All interleavings of two sequences (each kept in order). -/
def interleavings : List α → List α → List (List α)
  | [], ys => [ys]
  | x :: xs, [] => [x :: xs]
  | x :: xs, y :: ys =>
    (interleavings xs (y :: ys)).map (x :: ·) ++
      (interleavings (x :: xs) ys).map (y :: ·)

/-- The traces `command.start`'s channel exhibits on schedules where the
`sync.WaitGroup` barrier takes effect (both readers execute `wg.Add(1)` and
finish before the final goroutine passes `wg.Wait()`): the two reader
goroutines' event sequences interleaved arbitrarily (they run concurrently;
the channel serialises them), then one wait-error event when `cmd.Wait()`
failed, then channel closure.  These are a genuine subset of the program's
schedules, not all of them: `wg.Add(1)` is the first statement of the
reader closure and nothing orders it before `wg.Wait()`, so the early-Wait
schedules of `startTraceEarlyWait` also exist. -/
def startTraces (o e : StreamSpec) (w : Option String) : List (List Event) :=
  (interleavings (readerEvents .stdout o) (readerEvents .stderr e)).map
    (fun t => t ++ (w.toList.map Event.waitError) ++ [Event.closed])

/-- The trace of `Vagrant.Up`'s streaming goroutine (src/vagrant.go): a
single scanner over `io.MultiReader(stderrPipe, stdoutPipe)` — `scanned` is
the (src, text) sequence the scanner yields (all stderr lines before all
stdout lines when both pipes read cleanly) — then one scan-error event if
the scanner failed, one wait-error event if `cmd.Wait()` failed, then
closure. -/
def upTrace (scanned : List (Src × String)) (scanErr waitErr : Option String) :
    List Event :=
  scanned.map (fun p => Event.line p.1 p.2) ++
    (scanErr.toList.map (Event.scanError none)) ++
    (waitErr.toList.map Event.waitError) ++ [Event.closed]

/-- The scanner sequence of `Vagrant.Up` when both pipes read to EOF without
error: `io.MultiReader(stderrPipe, stdoutPipe)` yields every stderr line,
then every stdout line. -/
def upScanned (stderrLines stdoutLines : List String) : List (Src × String) :=
  stderrLines.map ((Src.stderr, ·)) ++ stdoutLines.map ((Src.stdout, ·))

/-- Event classifiers. -/
def Event.isLine : Event → Bool
  | .line _ _ => true
  | _ => false

def Event.isError : Event → Bool
  | .scanError _ _ => true
  | .waitError _ => true
  | _ => false

def Event.isWaitError : Event → Bool
  | .waitError _ => true
  | _ => false

/-- "No line event follows an error-bearing event" — the C6 claim's shape,
as a Boolean scan over a trace. -/
def noLineAfterError : List Event → Bool
  | [] => true
  | ev :: rest =>
    if ev.isError then rest.all (fun e => !e.isLine)
    else noLineAfterError rest

/-! ## The misplaced WaitGroup barrier (src/command.go)

`command.start` increments the `sync.WaitGroup` inside each reader
goroutine — `wg.Add(1)` is the first statement of the `output` closure —
while the final goroutine calls `wg.Wait()`, and nothing orders the Adds
before the Wait.  `sync.WaitGroup` requires Adds with a positive delta that
start from a zero counter to happen before the Wait, so on schedules where
the final goroutine runs first, `wg.Wait()` returns at once on counter 0
and the barrier the code intends (and the spec describes) is not
established. -/

/-- Modelled from the source under the early-Wait schedule the misplaced
`wg.Add(1)` permits: the final goroutine runs before either reader,
`wg.Wait()` returns on counter 0, `cmd.cmd.Wait()` reaps the process —
closing both pipe read ends and discarding their unread output — the
wait-error event is pushed when `Wait` failed, and the channel is closed.
Each reader then scans only a read-on-closed-pipe error and its send
panics on the closed channel, so no line event is ever delivered: the
channel history is the optional wait error and the closure. -/
def startTraceEarlyWait (w : Option String) : List Event :=
  w.toList.map Event.waitError ++ [Event.closed]

/-- One action in the lifecycle of a started streaming invocation. -/
inductive Action where
  | emit (ev : Event)
  | reap
  | callbackSuccess
  | callbackFailure
deriving DecidableEq, Repr

/-- Is the action one of the two completion callbacks? -/
def Action.isCallback : Action → Bool
  | .callbackSuccess => true
  | .callbackFailure => true
  | _ => false

/-- Modelled from the source, one step further along the early-Wait
schedule: between `close(out)` and `cmd.done(err)` a reader goroutine is
scheduled, its send of the read-on-closed-pipe scan error panics on the
closed channel, and the unrecovered panic kills the process before `done`
runs.  The actions performed up to the crash: the reap, the optional
wait-error emission, and the closure — no callback action occurs. -/
def startLifecycleEarlyWaitPanic (w : Option String) : List Action :=
  [Action.reap] ++ w.toList.map (fun m => Action.emit (Event.waitError m)) ++
    [Action.emit Event.closed]

theorem noLineAfterError_append_of_no_error {l r : List Event}
    (h : ∀ x ∈ l, x.isError = false) :
    noLineAfterError (l ++ r) = noLineAfterError r := by
  induction l with
  | nil => simp
  | cons ev l' ih =>
    have hev := h ev (List.mem_cons_self ev l')
    simp only [List.cons_append, noLineAfterError, hev, Bool.false_eq_true,
      if_false]
    exact ih (fun x hx => h x (List.mem_cons_of_mem _ hx))

/-- C1 (code bug) — under the early-Wait schedule the channel closes with
zero delivered line events although the process wrote its output: a process
writing one line to stdout and none to stderr yields 0, not 1+0, line
events before closure. -/
theorem start_lost_lines_bug :
    (startTraceEarlyWait none).countP Event.isLine = 0 ∧
    (startTraceEarlyWait none).getLast? = some Event.closed ∧
    ["default: SSH address: 127.0.0.1:2222"].length
      + ([] : List String).length ≠ 0 := by
  refine ⟨rfl, rfl, by decide⟩

/-- C2 (code bug) — continuing the early-Wait schedule past `close(out)`, a
reader's send panics on the closed channel and the unrecovered panic kills
the process before `cmd.done(err)` runs: the lifecycle contains the reap
and the closure but no callback action, whether `cmd.Wait()` failed or
not — neither on-success nor on-failure ever fires. -/
theorem start_callback_skipped_bug :
    (startLifecycleEarlyWaitPanic none).countP Action.isCallback = 0 ∧
    Action.reap ∈ startLifecycleEarlyWaitPanic none ∧
    (startLifecycleEarlyWaitPanic (some "exit status 1")).countP
      Action.isCallback = 0 := by
  refine ⟨rfl, by simp [startLifecycleEarlyWaitPanic], rfl⟩

/-- C6 counterexample — in `command.start`'s two-reader multiplexer
(src/command.go) a line event can follow an error-bearing event: with one
clean stdout line and a stderr scanner failure, the trace that schedules
the stderr reader first puts its error event before the stdout line
event. -/
theorem start_line_after_error_cex :
    ¬ (∀ t ∈ startTraces ⟨["a"], none⟩ ⟨[], some "read err"⟩ none,
        noLineAfterError t = true) := by
  intro h
  have hmem : [Event.scanError (some .stderr) "read err",
      Event.line .stdout "a", Event.closed]
      ∈ startTraces ⟨["a"], none⟩ ⟨[], some "read err"⟩ none := by
    simp [startTraces, interleavings, readerEvents]
  have hc := h _ hmem
  simp [noLineAfterError, Event.isError, Event.isLine] at hc

/-- C6 amended — the channel-global guarantee holds only for `Vagrant.Up`'s
single-scanner stream (src/vagrant.go): the trace is zero or more line
events (one per scanned line), then at most one scan-error event, then at
most one wait-error event (present exactly when `cmd.Wait()` failed), then
the single channel closure; no line event follows an error-bearing event,
and closure without any error event means the scan was clean and the
process succeeded.  For `command.start` no such guarantee holds: a line
event may follow the other stream's error event (the counterexample
above), and the misplaced `wg.Add(1)` additionally admits schedules that
lose line events altogether. -/
theorem up_stream_error_events_terminal (scanned : List (Src × String))
    (se we : Option String) :
    noLineAfterError (upTrace scanned se we) = true ∧
    (upTrace scanned se we).countP Event.isLine = scanned.length ∧
    (upTrace scanned se we).filter Event.isWaitError
      = we.toList.map Event.waitError ∧
    (upTrace scanned se we).countP Event.isError
      = (if se.isSome then 1 else 0) + (if we.isSome then 1 else 0) ∧
    (upTrace scanned se we).getLast? = some Event.closed ∧
    (upTrace scanned se we).countP (fun ev => ev = Event.closed) = 1 ∧
    ((upTrace scanned se we).countP Event.isError = 0 →
      se = none ∧ we = none) := by
  refine ⟨?_, ?_, ?_, ?_, ?_, ?_, ?_⟩
  · rw [upTrace, List.append_assoc, List.append_assoc,
      noLineAfterError_append_of_no_error (by
        intro x hx
        rcases List.mem_map.mp hx with ⟨p, _, rfl⟩
        rfl)]
    cases se <;> cases we <;>
      simp [noLineAfterError, Event.isError, Event.isLine]
  · cases se <;> cases we <;>
      simp [upTrace, Event.isLine, List.countP_append, List.countP_map,
        Function.comp_def, List.countP_eq_length]
  · have h0 : (scanned.map (fun p => Event.line p.1 p.2)).filter
        Event.isWaitError = [] := by
      apply List.filter_eq_nil_iff.mpr
      intro x hx
      rcases List.mem_map.mp hx with ⟨p, _, rfl⟩
      simp [Event.isWaitError]
    rw [upTrace, List.filter_append, List.filter_append, List.filter_append,
      h0]
    cases se <;> cases we <;> simp [Event.isWaitError]
  · cases se <;> cases we <;>
      simp [upTrace, Event.isError, List.countP_append, List.countP_map,
        Function.comp_def]
  · exact List.getLast?_concat _
  · cases se <;> cases we <;>
      simp [upTrace, List.countP_append, List.countP_map, Function.comp_def]
  · intro hz
    rw [upTrace, List.append_assoc, List.append_assoc,
      List.countP_append] at hz
    cases se <;> cases we <;> simp_all [Event.isError]

/-- C5 counterexample — with no Vagrantfile on disk, `Vagrant.Box`
(src/vagrant.go) performs no existence check: it spawns the subprocess and
succeeds; and `Vagrant.Up` does not fail either — it writes the missing
Vagrantfile, spawns, and returns success. -/
theorem vagrantfile_precondition_cex :
    ((fun _ => none : FS) ((Vagrant.mk "/boxes/a").vagrantfile) = none) ∧
    ((Vagrant.mk "/boxes/a").Box (fun _ => .ok "ubuntu (virtualbox)") .List).1
      ≠ [] ∧
    ((Vagrant.mk "/boxes/a").Box (fun _ => .ok "ubuntu (virtualbox)") .List).2
      = .ok "ubuntu (virtualbox)" ∧
    ((Vagrant.mk "/boxes/a").Up (fun _ => none) "cfg").2.2 = .ok () ∧
    Effect.spawn "/boxes/a" ["up"]
      ∈ ((Vagrant.mk "/boxes/a").Up (fun _ => none) "cfg").2.1 := by
  refine ⟨rfl, ?_, ?_, ?_, ?_⟩
  · simp [Vagrant.Box, Vagrant.runCommand]
  · rfl
  · rfl
  · simp [Vagrant.Up, Vagrant.vagrantfile]

/-- C5 amended — only `Status` and `Destroy` require the Vagrantfile to
exist and fail with the NotFound-style stat error before any subprocess is
spawned; `Box` performs no existence check and spawns regardless, and `Up`
with a missing Vagrantfile writes it and proceeds instead of failing
(`Version` is unchecked as the claim already said). -/
theorem vagrantfile_precondition (v : Vagrant) (fs : FS) (run : Oracle)
    (c : String) (sub : BoxSubcommand)
    (habs : fs v.vagrantfile = none) (hc : c ≠ "") :
    (v.Status fs run).1 = [] ∧
    (v.Status fs run).2
      = .error ("stat " ++ v.vagrantfile ++ ": no such file or directory") ∧
    (v.Destroy fs).1 = [] ∧
    (v.Destroy fs).2
      = .error ("stat " ++ v.vagrantfile ++ ": no such file or directory") ∧
    (v.Box run sub).1
      = [Effect.spawn v.VagrantfilePath ["box", sub.str, "--machine-readable"]] ∧
    (v.Up fs c).2.1
      = [Effect.writeFile v.vagrantfile c,
         Effect.spawn v.VagrantfilePath ["up"]] ∧
    (v.Up fs c).2.2 = .ok () := by
  refine ⟨?_, ?_, ?_, ?_, ?_, ?_, ?_⟩ <;>
    simp [Vagrant.Status, Vagrant.Destroy, Vagrant.Box, Vagrant.Up,
      Vagrant.runCommand, Vagrant.vagrantfileExists, habs, hc]

/-- C5 amended witness at a concrete session with no Vagrantfile. -/
theorem vagrantfile_precondition_witness :
    (((fun _ => none : FS) ((Vagrant.mk "/boxes/a").vagrantfile) = none) ∧
      "cfg" ≠ "") ∧
    (((Vagrant.mk "/boxes/a").Status (fun _ => none) (fun _ => .ok "")).1 = [] ∧
     ((Vagrant.mk "/boxes/a").Status (fun _ => none) (fun _ => .ok "")).2
       = .error ("stat " ++ (Vagrant.mk "/boxes/a").vagrantfile
           ++ ": no such file or directory") ∧
     ((Vagrant.mk "/boxes/a").Destroy (fun _ => none)).1 = [] ∧
     ((Vagrant.mk "/boxes/a").Destroy (fun _ => none)).2
       = .error ("stat " ++ (Vagrant.mk "/boxes/a").vagrantfile
           ++ ": no such file or directory") ∧
     ((Vagrant.mk "/boxes/a").Box (fun _ => .ok "") .List).1
       = [Effect.spawn "/boxes/a" ["box", BoxSubcommand.List.str,
           "--machine-readable"]] ∧
     ((Vagrant.mk "/boxes/a").Up (fun _ => none) "cfg").2.1
       = [Effect.writeFile (Vagrant.mk "/boxes/a").vagrantfile "cfg",
          Effect.spawn "/boxes/a" ["up"]] ∧
     ((Vagrant.mk "/boxes/a").Up (fun _ => none) "cfg").2.2 = .ok ()) :=
  ⟨⟨rfl, by decide⟩,
   vagrantfile_precondition (Vagrant.mk "/boxes/a") (fun _ => none)
     (fun _ => .ok "") "cfg" .List rfl (by decide)⟩

/-- C7 — `Vagrant.Up` (src/vagrant.go) never overwrites an existing
Vagrantfile: when the file exists, the file system after the call is the
one before it, the existing content is still on disk, and no write-file
effect is performed. -/
theorem Up_never_overwrites (v : Vagrant) (fs : FS) (c existing p c' : String)
    (h : fs v.vagrantfile = some existing) :
    (v.Up fs c).1 = fs ∧
    (v.Up fs c).1 v.vagrantfile = some existing ∧
    Effect.writeFile p c' ∉ (v.Up fs c).2.1 := by
  by_cases hc : c = "" <;> simp [Vagrant.Up, hc, h]

/-- C7 witness at a concrete session whose Vagrantfile already exists. -/
theorem Up_never_overwrites_witness :
    ((fun q => if q = "/d/Vagrantfile" then some "old" else none : FS)
        ((Vagrant.mk "/d").vagrantfile) = some "old") ∧
    (((Vagrant.mk "/d").Up
        (fun q => if q = "/d/Vagrantfile" then some "old" else none) "new").1
      = (fun q => if q = "/d/Vagrantfile" then some "old" else none) ∧
     ((Vagrant.mk "/d").Up
        (fun q => if q = "/d/Vagrantfile" then some "old" else none) "new").1
        ((Vagrant.mk "/d").vagrantfile) = some "old" ∧
     Effect.writeFile "/d/Vagrantfile" "new"
       ∉ ((Vagrant.mk "/d").Up
           (fun q => if q = "/d/Vagrantfile" then some "old" else none) "new").2.1) :=
  ⟨by simp [Vagrant.vagrantfile],
   Up_never_overwrites (Vagrant.mk "/d")
     (fun q => if q = "/d/Vagrantfile" then some "old" else none)
     "new" "old" "/d/Vagrantfile" "new" (by simp [Vagrant.vagrantfile])⟩

theorem foldl_parseStep (ty : String) :
    ∀ (records : List (List String)) (d : String),
      records.foldl
        (fun data record =>
          if record.length < 4 then data
          else if ty = record.getD 2 "" then record.getD 3 ""
          else data) d
      = ((matchingRows records ty).getLast?.map (fun r => r.getD 3 "")).getD d := by
  intro records
  induction records with
  | nil => intro d; simp [matchingRows]
  | cons r rs ih =>
    intro d
    rw [List.foldl_cons]
    by_cases h4 : r.length < 4
    · have hm : matchingRows (r :: rs) ty = matchingRows rs ty := by
        rw [matchingRows, List.filter_cons_of_neg (by
          simp only [Bool.and_eq_true, decide_eq_true_eq, not_and]
          intro h
          exact absurd h (by omega)), matchingRows]
      rw [if_pos h4, hm, ih d]
    · rw [if_neg h4]
      by_cases hty : ty = r.getD 2 ""
      · have hm : matchingRows (r :: rs) ty = r :: matchingRows rs ty := by
          rw [matchingRows, List.filter_cons_of_pos (by
            simp only [Bool.and_eq_true, decide_eq_true_eq]
            exact ⟨by omega, by simpa using hty⟩), matchingRows]
        rw [if_pos hty, hm, ih (r.getD 3 "")]
        rcases hrs : matchingRows rs ty with _ | ⟨b, l⟩
        · simp
        · have hz : ∃ z, (b :: l).getLast? = some z :=
            ⟨(b :: l).getLast (by simp), List.getLast?_eq_getLast _ (by simp)⟩
          obtain ⟨z, hzz⟩ := hz
          simp [List.getLast?_cons_cons, hzz]
      · have hm : matchingRows (r :: rs) ty = matchingRows rs ty := by
          rw [matchingRows, List.filter_cons_of_neg (by
            simp only [Bool.and_eq_true, decide_eq_true_eq, not_and]
            intro h
            simpa using hty), matchingRows]
        rw [if_neg hty, hm, ih d]

/-- C3 — `parseData` (src/vagrant.go) scans every row; only rows with at
least 4 fields whose field index 2 equals the name participate; the last
match wins, its field index 3 being the value; the NotFound error is
returned exactly when no row matched or the final matched value is
empty. -/
theorem parseData_last_match_wins (records : List (List String)) (ty : String) :
    parseData records ty =
      match (matchingRows records ty).getLast? with
      | none =>
        .error ("couldn't parse data for vagrant type: '" ++ ty ++ "'")
      | some r =>
        if r.getD 3 "" = "" then
          .error ("couldn't parse data for vagrant type: '" ++ ty ++ "'")
        else .ok (r.getD 3 "") := by
  simp only [parseData, foldl_parseStep]
  rcases h : (matchingRows records ty).getLast? with _ | r
  · simp
  · simp only [Option.map_some, Option.getD_some]
    by_cases hv : r.getD 3 "" = "" <;> simp [hv]

/-- C4 — `toStatus` (src/vagrant.go) maps exactly the four known state
strings to their `Status` values, never produces `Unknown` on success, and
every other input yields an error carrying the original string. -/
theorem toStatus_total_and_fails_closed (s u : String)
    (h1 : s ≠ "running") (h2 : s ≠ "not_created") (h3 : s ≠ "saved")
    (h4 : s ≠ "poweroff") :
    toStatus "running" = .ok Status.Running ∧
    toStatus "not_created" = .ok Status.NotCreated ∧
    toStatus "saved" = .ok Status.Saved ∧
    toStatus "poweroff" = .ok Status.PowerOff ∧
    toStatus u ≠ .ok Status.Unknown ∧
    toStatus s = .error ("Unknown state: " ++ s) := by
  refine ⟨rfl, rfl, rfl, rfl, ?_, by simp [toStatus, h1, h2, h3, h4]⟩
  unfold toStatus
  split_ifs <;> simp

/-- C4 witness: an unrecognised state string is rejected with an error
carrying it. -/
theorem toStatus_total_and_fails_closed_witness :
    ("zzz" ≠ "running" ∧ "zzz" ≠ "not_created" ∧ "zzz" ≠ "saved" ∧
      "zzz" ≠ "poweroff") ∧
    (toStatus "running" = .ok Status.Running ∧
     toStatus "not_created" = .ok Status.NotCreated ∧
     toStatus "saved" = .ok Status.Saved ∧
     toStatus "poweroff" = .ok Status.PowerOff ∧
     toStatus "paused" ≠ .ok Status.Unknown ∧
     toStatus "zzz" = .error ("Unknown state: " ++ "zzz")) :=
  ⟨⟨by decide, by decide, by decide, by decide⟩,
   toStatus_total_and_fails_closed "zzz" "paused"
     (by decide) (by decide) (by decide) (by decide)⟩

/-- C8 — when the process behind `command.run` (src/command.go) exits
non-zero, the returned output string is empty, the returned error embeds
the raw combined output text, and the failure callback (and not the
success one) fires before the call returns. -/
theorem run_nonzero_wraps_output (combined e : String) :
    (commandRun combined (some e)).output = "" ∧
    (∃ pre, (commandRun combined (some e)).err = some (pre ++ combined)) ∧
    RunAction.callbackFailure ∈ (commandRun combined (some e)).trace ∧
    RunAction.callbackSuccess ∉ (commandRun combined (some e)).trace := by
  refine ⟨rfl, ?_, by simp [commandRun], by simp [commandRun]⟩
  by_cases h : combined = ""
  · subst h
    exact ⟨e, by simp [commandRun]⟩
  · exact ⟨e ++ ": ", by simp [commandRun, h]⟩

/-- C9 — when the current user lookup succeeds and the name is empty,
`NewVagrant` (src/vagrant.go) returns a nil session together with a nil
error: the caller gets neither a usable value nor an explanation. -/
theorem NewVagrant_empty_name (homeDir : String)
    (mkdir : String → Option String) :
    NewVagrant (.ok homeDir) mkdir "" = (none, none) := rfl

/-- C10 — `Vagrant.Up` (src/vagrant.go) with empty Vagrantfile content
fails immediately: a non-nil error, no file written, no subprocess spawned,
and the file system untouched. -/
theorem Up_empty_content (v : Vagrant) (fs : FS) :
    v.Up fs "" = (fs, [], .error "Vagrantfile content is empty") := rfl

end Vagrantutil
